import Mathlib

/-!
Shallow embedding of `src/data_downloader.py` (class `CarCrawler`).

The Python module crawls a car-listing site: it paginates over result pages
(`iterate_over_available_cars`), dispatches `parse_car_page` over the set of
pending links (`new_vehicle_links`), classifies each link into
`processed_vehicle_links` or `broken_vehicle_links`, and batches the parsed
records to disk (`save_data`).  HTML documents are modelled by their parsed
content (the values the BeautifulSoup queries of the source return); the
network is modelled by oracle functions returning either a document or an
error, and a per-wave index accounts for the fact that repeating the same
HTTP request at a later time may give a different outcome.  Python `set`
objects are modelled as duplicate-free lists (`pySetAdd` / `pySetUpdate` /
`pySetRemove` reproduce `set.add`, `set.update` and `set.remove`, the last
one raising `KeyError` on a missing element, exactly as in Python).
-/

/-- Python `str.strip()`: drop leading and trailing whitespace. -/
def pyStrip (s : String) : String :=
  ⟨((s.data.dropWhile Char.isWhitespace).reverse.dropWhile Char.isWhitespace).reverse⟩

/-- Splitting a character list at every occurrence of `c`, keeping empty
pieces, as Python `str.split(sep)` does for a one-character separator. -/
def splitOnCharList (c : Char) : List Char → List (List Char)
  | [] => [[]]
  | x :: xs =>
    let r := splitOnCharList c xs
    if x = c then [] :: r
    else
      match r with
      | [] => [[x]]
      | h :: t => (x :: h) :: t

/-- Python `s.split(c)` for a one-character separator `c`. -/
def pySplit (c : Char) (s : String) : List String :=
  (splitOnCharList c s.data).map (fun l => ⟨l⟩)

/-- Python `s.replace(c, '')`: remove every occurrence of the character `c`. -/
def pyRemoveChar (c : Char) (s : String) : String :=
  ⟨s.data.filter (fun x => ¬ x = c)⟩

/-- Whether the first list is an initial segment of the second. -/
def listStartsWith : List Char → List Char → Bool
  | [], _ => true
  | _ :: _, [] => false
  | x :: xs, y :: ys => if x = y then listStartsWith xs ys else false

/-- Whether `needle` occurs as a contiguous sublist of the second argument. -/
def listContainsSub (needle : List Char) : List Char → Bool
  | [] => listStartsWith needle []
  | x :: xs => listStartsWith needle (x :: xs) || listContainsSub needle xs

/-- Python `needle in hay` on strings (substring test). -/
def pyContains (hay needle : String) : Bool := listContainsSub needle.data hay.data

/-- Python `dict` assignment `d[k] = v` on an insertion-ordered association
list: an existing key keeps its position and gets the new value, a new key is
appended at the end. -/
def dictInsert {α : Type} (d : List (String × α)) (k : String) (v : α) : List (String × α) :=
  if d.any (fun p => p.1 = k) then d.map (fun p => if p.1 = k then (k, v) else p)
  else d ++ [(k, v)]

/-- Lookup in an association list (Python `d.get(k)`). -/
def dictLookup {α : Type} (d : List (String × α)) (k : String) : Option α :=
  (d.find? (fun p => p.1 = k)).map (fun p => p.2)

/-- Values stored in `data['description']`: the source stores a plain string
for a missing section or for `Leírás`, and a list of lines for a present
`Egyéb információ` section. -/
inductive DescVal : Type
  | str (s : String)
  | strs (l : List String)
deriving DecidableEq, Repr

/-- The parsed content of one car listing page, as seen by the BeautifulSoup
queries of `parse_images` / `parse_common_data` / `parse_details_data` /
`parse_description_data`.  A `none` field models a query whose element is
absent from the document.  `thumbnails` holds, for each thumbnail `src`
link, the outcome of downloading it (`none` = the download raises). -/
structure CarPageHtml where
  thumbnails : List (Option String)
  marka : Option String
  modell : Option String
  modellcsoport : Option String
  hirdetesadatok : Option (List (List String))
  detail_divs : List String
  leiras : Option String
  egyebinformacio : Option String
deriving DecidableEq, Repr

/-- The record assembled by `parse_car_page` for one car (`data` dict). -/
structure VData where
  link : String
  vid : String
  images : List String
  common : List (String × String)
  details : List (String × List String)
  description : List (String × DescVal)
deriving DecidableEq, Repr

/-- Source `parse_images`: download every thumbnail in order; the first
failing download raises out of the loop. -/
def parse_images (thumbs : List (Option String)) : Except String (List String) :=
  thumbs.foldl
    (fun acc t =>
      match acc with
      | .error e => .error e
      | .ok l =>
        match t with
        | some img => .ok (l ++ [img])
        | none => .error "URLError")
    (.ok [])

/-- The filter the source applies to the cells of one table row: keep the
stripped text when it is non-empty (Python truthiness of the string). -/
def nonEmptyStr (t : String) : Bool := ¬ t = ""

/-- Source line `cols = [ele.text.strip() for ele in row.find_all('td') if ele.text.strip()]`. -/
def colsOf (row : List String) : List String :=
  (row.map pyStrip).filter nonEmptyStr

/-- Source line `elements = [ele for ele in cols if ele]`. -/
def elementsOf (row : List String) : List String :=
  (colsOf row).filter nonEmptyStr

/-- The value stored for a well-formed table row: the second cell with every
non-breaking space removed (`elements[1].replace(u'\xa0', u'')`). -/
def remove_nbsp (s : String) : String := pyRemoveChar '\u00A0' s

/-- One iteration of the row loop of `parse_common_data`: a row contributes a
key/value pair exactly when it has exactly two non-empty cells. -/
def commonRowStep (d : List (String × String)) (row : List String) : List (String × String) :=
  match elementsOf row with
  | [k, v] => dictInsert d k (remove_nbsp v)
  | _ => d

/-- Source `parse_common_data`: the brand and model anchors are mandatory
(an absent one makes `.getText()` raise `AttributeError`), the model-group
anchor degrades to `''`, the `hirdetesadatok` table is mandatory, and its
rows are folded with `commonRowStep`. -/
def parse_common_data (pg : CarPageHtml) : Except String (List (String × String)) :=
  match pg.marka with
  | none => .error "AttributeError"
  | some brand =>
    match pg.modell with
    | none => .error "AttributeError"
    | some model =>
      let model_group := match pg.modellcsoport with | none => "" | some t => t
      match pg.hirdetesadatok with
      | none => .error "AttributeError"
      | some rows =>
        .ok (rows.foldl commonRowStep
          (dictInsert (dictInsert (dictInsert [] "brand" brand) "model" model)
            "model_group" model_group))

/-- The closed list of section titles recognised by `parse_details_data`. -/
def detail_titles : List String := ["Beltér", "Műszaki", "Kültér", "Multimédia / Navigáció"]

/-- Inner loop of `parse_details_data` for one detail `div`'s text. -/
def detailStep (d : List (String × List String)) (detail : String) : List (String × List String) :=
  detail_titles.foldl
    (fun d title =>
      if pyContains detail title then
        dictInsert d title (((pySplit '\n' detail).dropLast).drop 1)
      else d)
    d

/-- Source `parse_details_data` over the texts of the matched detail divs. -/
def parse_details_data (divs : List String) : List (String × List String) :=
  divs.foldl detailStep []

/-- The `Leírás` value: `''` when the div is missing, otherwise the third
line of its text (`.split('\n')[2]`, raising `IndexError` when absent). -/
def descr_value : Option String → Except String DescVal
  | none => .ok (DescVal.str "")
  | some t =>
    match (pySplit '\n' t).get? 2 with
    | some line => .ok (DescVal.str line)
    | none => .error "IndexError"

/-- The `Egyéb információ` value: `''` when the div is missing, otherwise
the line slice `.split('\n')[3:-1]` (never raising). -/
def egyeb_value : Option String → DescVal
  | none => DescVal.str ""
  | some t => DescVal.strs (((pySplit '\n' t).drop 3).dropLast)

/-- Source `parse_description_data`: builds `data['description']` with the
two fixed keys; the `Leírás` computation runs first and may raise. -/
def parse_description_data (pg : CarPageHtml) : Except String (List (String × DescVal)) :=
  match descr_value pg.leiras with
  | .error e => .error e
  | .ok dv =>
    .ok (dictInsert (dictInsert [] "Leírás" dv) "Egyéb információ" (egyeb_value pg.egyebinformacio))

/-- The body of `parse_car_page`'s `try` block up to and including
`parse_description_data`: fetch the page with the oracle, then run the four
parse helpers in source order, propagating the first raised exception. -/
def fetch_and_parse (fetchPage : String → Except String CarPageHtml) (link : String) :
    Except String VData :=
  let vid := (pySplit '-' link).getLastD ""
  match fetchPage link with
  | .error e => .error e
  | .ok pg =>
    match parse_images pg.thumbnails with
    | .error e => .error e
    | .ok imgs =>
      match parse_common_data pg with
      | .error e => .error e
      | .ok common =>
        let details := parse_details_data pg.detail_divs
        match parse_description_data pg with
        | .error e => .error e
        | .ok descr => .ok ⟨link, vid, imgs, common, details, descr⟩

/-- Python `set.add` on a duplicate-free list: append only when absent. -/
def pySetAdd (xs : List String) (x : String) : List String :=
  if x ∈ xs then xs else xs ++ [x]

/-- Python `set.update(ys)`: add every element of `ys` in turn. -/
def pySetUpdate (xs ys : List String) : List String :=
  ys.foldl pySetAdd xs

/-- Python `set.remove`: erase the element, raising `KeyError` if absent. -/
def pySetRemove (xs : List String) (x : String) : Except String (List String) :=
  if x ∈ xs then .ok (xs.erase x) else .error "KeyError"

/-- The mutable fields of the crawler plus its outputs to disk:
`saved_batches` records each pickle file written by `save_data` (one entry
per written batch file) and `broken_links_file` the last written content of
`data/broken_links.pkl` (the source overwrites that file on every flush). -/
structure CrawlState where
  vehicle_data : List VData
  new_vehicle_links : List String
  broken_vehicle_links : List String
  processed_vehicle_links : List String
  saved_batches : List (List VData)
  broken_links_file : Option (List String)
deriving DecidableEq, Repr

/-- The state of the crawler right after `__init__` builds the four empty
containers at the top of `iterate_over_available_cars`. -/
def initState : CrawlState :=
  { vehicle_data := [], new_vehicle_links := [], broken_vehicle_links := [],
    processed_vehicle_links := [], saved_batches := [], broken_links_file := none }

/-- Source line 114: `self.vehicle_data.append(data)`. -/
def append_vehicle (d : VData) (s : CrawlState) : CrawlState :=
  { s with vehicle_data := s.vehicle_data ++ [d] }

/-- Source line 115: `self.processed_vehicle_links.add(vehicle_link)`. -/
def add_processed (l : String) (s : CrawlState) : CrawlState :=
  { s with processed_vehicle_links := pySetAdd s.processed_vehicle_links l }

/-- Source line 120: `self.broken_vehicle_links.add(vehicle_link)`. -/
def add_broken (l : String) (s : CrawlState) : CrawlState :=
  { s with broken_vehicle_links := pySetAdd s.broken_vehicle_links l }

/-- The crawler state in the middle of `parse_car_page`'s success path:
after line 115 has added the link to `processed_vehicle_links` and before
line 116 has removed it from `new_vehicle_links`. -/
def parse_mid (l : String) (d : VData) (s : CrawlState) : CrawlState :=
  add_processed l (append_vehicle d s)

/-- The `except` branch of `parse_car_page` (lines 118-121): remove the link
from `new_vehicle_links` (a raising `set.remove` here is not caught and
escapes the task, carried in the second component), then add it to
`broken_vehicle_links`. -/
def except_branch (l : String) (s : CrawlState) : CrawlState × Option String :=
  match pySetRemove s.new_vehicle_links l with
  | .ok ns => (add_broken l { s with new_vehicle_links := ns }, none)
  | .error e => (s, some e)

/-- Source `parse_car_page` for one link, given the per-call fetch oracle.
Returns the state after the task and the exception escaping the task, if
any (a `ThreadPoolExecutor.submit` future swallows such an exception, so it
is recorded rather than propagated). -/
def parse_car_page (f : String → Except String CarPageHtml) (l : String) (s : CrawlState) :
    CrawlState × Option String :=
  match fetch_and_parse f l with
  | .ok d =>
    let s2 := parse_mid l d s
    match pySetRemove s2.new_vehicle_links l with
    | .ok ns => ({ s2 with new_vehicle_links := ns }, none)
    | .error _ => except_branch l s2
  | .error _ => except_branch l s

/-- One dispatch wave (source lines 61-63): every link of the snapshot is
submitted to the executor; tasks run to completion and an exception stored
in a never-inspected future is dropped, so the wave itself never raises. -/
def run_wave (f : String → Except String CarPageHtml) (links : List String) (s : CrawlState) :
    CrawlState :=
  match links with
  | [] => s
  | l :: rest => run_wave f rest (parse_car_page f l s).1

/-- Source lines 57-58: merge the vehicle links found on the current result
page into `new_vehicle_links` with `set.update`. -/
def merge_links (hrefs : List String) (s : CrawlState) : CrawlState :=
  { s with new_vehicle_links := pySetUpdate s.new_vehicle_links hrefs }

/-- Source `save_data(limit=1000)`: when at least `limit` records are
buffered, write one batch file holding the whole buffer, overwrite the
broken-links file with the current broken set, and clear the buffer;
otherwise do nothing. -/
def save_data (limit : Nat) (s : CrawlState) : CrawlState :=
  if limit ≤ s.vehicle_data.length then
    { s with saved_batches := s.saved_batches ++ [s.vehicle_data],
             broken_links_file := some s.broken_vehicle_links,
             vehicle_data := [] }
  else s

/-- One result page as the pagination loop sees it: the listing links it
carries and the outcome of `html.find('li', class_='next')` — `none` when
the `li` element is absent (so that `.find('a')` is called on `None` and
raises `AttributeError`), `some b` when it is present with `b` the optional
href of the anchor inside it. -/
structure ResultPage where
  hrefs : List String
  liNext : Option (Option String)
deriving DecidableEq, Repr

/-- Source lines 51 and 73: `html.find('li', class_='next').find('a')`.
Raises `AttributeError` when the `li` element is missing. -/
def find_next_button (p : ResultPage) : Except String (Option String) :=
  match p.liNext with
  | none => .error "AttributeError"
  | some btn => .ok btn

/-- The `while` loop of `iterate_over_available_cars` (lines 54-73), with a
fuel bound for termination.  `getPage` is the `requests.get` oracle for
result pages, `fetchCar wave` the `requests.post` oracle used by the tasks
of wave number `wave`.  On normal exit the final state is returned together
with the list of result-page URLs fetched inside the loop; a raised
exception (failed page fetch, missing `li.next`) propagates as `.error`. -/
def crawl_loop (getPage : String → Except String ResultPage)
    (fetchCar : Nat → String → Except String CarPageHtml) :
    Nat → Nat → ResultPage → Option String → CrawlState →
    Except String (CrawlState × List String)
  | 0, _, _, _, _ => .error "OutOfFuel"
  | fuel + 1, wave, page, btn, s =>
    match btn with
    | none => .ok (s, [])
    | some nextUrl =>
      let s1 := merge_links page.hrefs s
      let s2 := run_wave (fetchCar wave) s1.new_vehicle_links s1
      let s3 := save_data 1000 s2
      match getPage nextUrl with
      | .error e => .error e
      | .ok page2 =>
        match find_next_button page2 with
        | .error e => .error e
        | .ok btn2 =>
          match crawl_loop getPage fetchCar fuel (wave + 1) page2 btn2 s3 with
          | .ok (sf, log) => .ok (sf, nextUrl :: log)
          | .error e => .error e

/-- Source `iterate_over_available_cars`: initialise the four containers,
fetch the first result page (lines 49-51, any exception propagating), then
run the pagination loop.  The returned URL list also records the initial
fetch of `website`. -/
def iterate_over_available_cars (getPage : String → Except String ResultPage)
    (fetchCar : Nat → String → Except String CarPageHtml) (fuel : Nat) (website : String) :
    Except String (CrawlState × List String) :=
  match getPage website with
  | .error e => .error e
  | .ok page0 =>
    match find_next_button page0 with
    | .error e => .error e
    | .ok btn0 =>
      match crawl_loop getPage fetchCar fuel 0 page0 btn0 initState with
      | .ok (s, log) => .ok (s, website :: log)
      | .error e => .error e

lemma pySetAdd_mem (xs : List String) (x y : String) :
    y ∈ pySetAdd xs x ↔ y ∈ xs ∨ y = x := by
  unfold pySetAdd
  split
  · rename_i hx
    constructor
    · exact fun h => Or.inl h
    · rintro (h | h)
      · exact h
      · exact h ▸ hx
  · simp [List.mem_append]

lemma pySetAdd_self (xs : List String) (x : String) : x ∈ pySetAdd xs x := by
  rw [pySetAdd_mem]; exact Or.inr rfl

lemma pySetAdd_nodup (xs : List String) (x : String) (h : xs.Nodup) :
    (pySetAdd xs x).Nodup := by
  unfold pySetAdd
  split
  · exact h
  · rename_i hx
    simpa [List.nodup_append] using ⟨h, hx⟩

lemma pySetUpdate_mem (ys xs : List String) (y : String) :
    y ∈ pySetUpdate xs ys ↔ y ∈ xs ∨ y ∈ ys := by
  induction ys generalizing xs with
  | nil => simp [pySetUpdate]
  | cons a rest ih =>
    have : pySetUpdate xs (a :: rest) = pySetUpdate (pySetAdd xs a) rest := rfl
    rw [this, ih, pySetAdd_mem]
    simp [or_assoc]

lemma pySetUpdate_nodup (ys xs : List String) (h : xs.Nodup) :
    (pySetUpdate xs ys).Nodup := by
  induction ys generalizing xs with
  | nil => exact h
  | cons a rest ih => exact ih (pySetAdd xs a) (pySetAdd_nodup xs a h)

lemma parse_car_page_self (f : String → Except String CarPageHtml) (l : String) (s : CrawlState)
    (hl : l ∈ s.new_vehicle_links) :
    (parse_car_page f l s).2 = none
    ∧ (parse_car_page f l s).1.new_vehicle_links = s.new_vehicle_links.erase l
    ∧ (((parse_car_page f l s).1.processed_vehicle_links = pySetAdd s.processed_vehicle_links l
        ∧ (parse_car_page f l s).1.broken_vehicle_links = s.broken_vehicle_links)
      ∨ ((parse_car_page f l s).1.processed_vehicle_links = s.processed_vehicle_links
        ∧ (parse_car_page f l s).1.broken_vehicle_links
            = pySetAdd s.broken_vehicle_links l)) := by
  unfold parse_car_page
  cases hfp : fetch_and_parse f l with
  | ok d =>
    simp only [parse_mid, add_processed, append_vehicle, pySetRemove, except_branch, add_broken]
    simp [hl]
  | error e =>
    simp only [except_branch, add_broken, pySetRemove]
    simp [hl]

lemma parse_car_page_frame (f : String → Except String CarPageHtml) (k : String)
    (s : CrawlState) (x : String) (hne : x ≠ k) :
    (x ∈ (parse_car_page f k s).1.processed_vehicle_links
      ↔ x ∈ s.processed_vehicle_links)
    ∧ (x ∈ (parse_car_page f k s).1.broken_vehicle_links
      ↔ x ∈ s.broken_vehicle_links)
    ∧ (x ∈ (parse_car_page f k s).1.new_vehicle_links
      ↔ x ∈ s.new_vehicle_links) := by
  unfold parse_car_page
  cases hfp : fetch_and_parse f k with
  | ok d =>
    simp only [parse_mid, add_processed, append_vehicle, pySetRemove, except_branch, add_broken]
    by_cases hk : k ∈ s.new_vehicle_links
    · simp [hk, pySetAdd_mem, hne, List.mem_erase_of_ne hne]
    · simp [hk, pySetAdd_mem, hne]
  | error e =>
    simp only [except_branch, add_broken, pySetRemove]
    by_cases hk : k ∈ s.new_vehicle_links
    · simp [hk, pySetAdd_mem, hne, List.mem_erase_of_ne hne]
    · simp [hk]

lemma run_wave_frame (f : String → Except String CarPageHtml) (links : List String)
    (s : CrawlState) (x : String) (hx : x ∉ links) :
    (x ∈ (run_wave f links s).processed_vehicle_links ↔ x ∈ s.processed_vehicle_links)
    ∧ (x ∈ (run_wave f links s).broken_vehicle_links ↔ x ∈ s.broken_vehicle_links)
    ∧ (x ∈ (run_wave f links s).new_vehicle_links ↔ x ∈ s.new_vehicle_links) := by
  induction links generalizing s with
  | nil => simp [run_wave]
  | cons k rest ih =>
    simp only [run_wave]
    have hne : x ≠ k := fun h => hx (h ▸ List.mem_cons_self k rest)
    have hrest : x ∉ rest := fun h => hx (List.mem_cons_of_mem k h)
    have h1 := parse_car_page_frame f k s x hne
    have h2 := ih (parse_car_page f k s).1 hrest
    exact ⟨h2.1.trans h1.1, h2.2.1.trans h1.2.1, h2.2.2.trans h1.2.2⟩

lemma run_wave_settles (f : String → Except String CarPageHtml) :
    ∀ (links : List String) (s : CrawlState),
    links.Nodup → s.new_vehicle_links.Nodup →
    (∀ x ∈ links, x ∈ s.new_vehicle_links) →
    ∀ l, l ∈ links → l ∉ s.processed_vehicle_links → l ∉ s.broken_vehicle_links →
    l ∉ (run_wave f links s).new_vehicle_links
    ∧ (l ∈ (run_wave f links s).processed_vehicle_links
       ↔ l ∉ (run_wave f links s).broken_vehicle_links) := by
  intro links
  induction links with
  | nil =>
    intro s _ _ _ l hl
    cases hl
  | cons k rest ih =>
    intro s hnd hnew hsub l hl hp hb
    simp only [run_wave]
    have hknew : k ∈ s.new_vehicle_links := hsub k (List.mem_cons_self k rest)
    obtain ⟨-, hnew', hdisj⟩ := parse_car_page_self f k s hknew
    have hkrest : k ∉ rest := (List.nodup_cons.mp hnd).1
    have hndrest : rest.Nodup := (List.nodup_cons.mp hnd).2
    rcases List.mem_cons.mp hl with rfl | hlrest
    · -- the dispatched link itself
      have hfr := run_wave_frame f rest (parse_car_page f l s).1 l hkrest
      have hnotnew : l ∉ (parse_car_page f l s).1.new_vehicle_links := by
        rw [hnew']
        intro hmem
        exact ((List.Nodup.mem_erase_iff hnew).mp hmem).1 rfl
      refine ⟨fun hmem => hnotnew (hfr.2.2.mp hmem), ?_⟩
      rcases hdisj with ⟨hpq, hbq⟩ | ⟨hpq, hbq⟩
      · have hPin : l ∈ (parse_car_page f l s).1.processed_vehicle_links := by
          rw [hpq]; exact pySetAdd_self _ _
        have hBout : l ∉ (parse_car_page f l s).1.broken_vehicle_links := by
          rw [hbq]; exact hb
        exact ⟨fun _ hbr => hBout (hfr.2.1.mp hbr), fun _ => hfr.1.mpr hPin⟩
      · have hPout : l ∉ (parse_car_page f l s).1.processed_vehicle_links := by
          rw [hpq]; exact hp
        have hBin : l ∈ (parse_car_page f l s).1.broken_vehicle_links := by
          rw [hbq]; exact pySetAdd_self _ _
        refine ⟨fun hmem => absurd (hfr.1.mp hmem) hPout, fun hnb => ?_⟩
        exact absurd (hfr.2.1.mpr hBin) hnb
    · -- a link dispatched later in the wave
      have hlk : l ≠ k := fun h => hkrest (h ▸ hlrest)
      have hnew2 : (parse_car_page f k s).1.new_vehicle_links.Nodup := by
        rw [hnew']; exact hnew.erase k
      have hsub' : ∀ x ∈ rest, x ∈ (parse_car_page f k s).1.new_vehicle_links := by
        intro x hx
        have hxk : x ≠ k := fun h => hkrest (h ▸ hx)
        rw [hnew']
        exact (List.mem_erase_of_ne hxk).mpr (hsub x (List.mem_cons_of_mem k hx))
      have hp' : l ∉ (parse_car_page f k s).1.processed_vehicle_links := by
        rcases hdisj with ⟨hpq, -⟩ | ⟨hpq, -⟩
        · rw [hpq, pySetAdd_mem]
          rintro (h | h)
          · exact hp h
          · exact hlk h
        · rw [hpq]; exact hp
      have hb' : l ∉ (parse_car_page f k s).1.broken_vehicle_links := by
        rcases hdisj with ⟨-, hbq⟩ | ⟨-, hbq⟩
        · rw [hbq]; exact hb
        · rw [hbq, pySetAdd_mem]
          rintro (h | h)
          · exact hb h
          · exact hlk h
      exact ih (parse_car_page f k s).1 hndrest hnew2 hsub' l hlrest hp' hb'

/-- C5: for every record buffer and threshold, a flush check below the
threshold writes no file and leaves the state (in particular the buffer)
unchanged; at or above the threshold it writes exactly one batch file
containing the whole buffer, leaves the buffer empty, and overwrites the
broken-links file with the current broken set. -/
theorem save_data_threshold_behaviour (limit : Nat) (s : CrawlState) :
    (s.vehicle_data.length < limit → save_data limit s = s)
    ∧ (limit ≤ s.vehicle_data.length →
        (save_data limit s).saved_batches = s.saved_batches ++ [s.vehicle_data]
        ∧ (save_data limit s).vehicle_data = []
        ∧ (save_data limit s).broken_links_file = some s.broken_vehicle_links) := by
  constructor
  · intro h
    unfold save_data
    rw [if_neg (by omega)]
  · intro h
    unfold save_data
    rw [if_pos h]
    exact ⟨rfl, rfl, rfl⟩

/-- A one-record buffer entry used by concrete witness states. -/
def demoVData : VData := ⟨"A", "A", [], [], [], []⟩

/-- A concrete crawler state with one buffered record and one link in each
link set, used by witnesses. -/
def demoFlushState : CrawlState :=
  { vehicle_data := [demoVData], new_vehicle_links := ["N"],
    broken_vehicle_links := ["B"], processed_vehicle_links := ["P"],
    saved_batches := [], broken_links_file := none }

theorem save_data_threshold_behaviour_witness :
    (save_data 1000 initState = initState)
    ∧ (save_data 1 demoFlushState).saved_batches = [[demoVData]] := by
  refine ⟨(save_data_threshold_behaviour 1000 initState).1 (by decide), ?_⟩
  have h := (save_data_threshold_behaviour 1 demoFlushState).2 (by decide)
  exact h.1

/-- C10: a flush that fires mutates only the record buffer and the on-disk
outputs; the pending, processed and broken link sets are exactly the same
after `save_data` as before it. -/
theorem flush_preserves_link_sets (limit : Nat) (s : CrawlState)
    (h : limit ≤ s.vehicle_data.length) :
    (save_data limit s).new_vehicle_links = s.new_vehicle_links
    ∧ (save_data limit s).processed_vehicle_links = s.processed_vehicle_links
    ∧ (save_data limit s).broken_vehicle_links = s.broken_vehicle_links := by
  unfold save_data
  rw [if_pos h]
  exact ⟨rfl, rfl, rfl⟩

theorem flush_preserves_link_sets_witness :
    (save_data 1 demoFlushState).new_vehicle_links = demoFlushState.new_vehicle_links
    ∧ (save_data 1 demoFlushState).processed_vehicle_links
        = demoFlushState.processed_vehicle_links
    ∧ (save_data 1 demoFlushState).broken_vehicle_links
        = demoFlushState.broken_vehicle_links :=
  flush_preserves_link_sets 1 demoFlushState (by decide)

/-- C2 counterexample: a link that is already in the broken set (and hence
was seen before in this run) is added to the pending set again when it is
rediscovered on a later result page — the merge of lines 57-58 dedups only
against `new_vehicle_links`, not against the other two sets. -/
theorem broken_link_readded_to_pending :
    "A" ∈ (merge_links ["A"]
      { initState with broken_vehicle_links := ["A"] }).new_vehicle_links
    ∧ "A" ∈ ({ initState with broken_vehicle_links := ["A"] } :
        CrawlState).broken_vehicle_links := by
  decide

/-- C2 (amended): the merge of discovered listing links into the pending set
dedups only against the pending set itself — after the merge a link is
pending iff it was pending before or occurs among the discovered links, the
pending set stays duplicate-free, and a link present in the broken (or
processed) set is re-added to pending whenever it is rediscovered. -/
theorem merge_dedups_only_against_pending (hrefs : List String) (s : CrawlState) (l : String)
    (hnd : s.new_vehicle_links.Nodup) :
    (l ∈ (merge_links hrefs s).new_vehicle_links
      ↔ l ∈ s.new_vehicle_links ∨ l ∈ hrefs)
    ∧ (merge_links hrefs s).new_vehicle_links.Nodup
    ∧ (l ∈ s.broken_vehicle_links → l ∉ s.new_vehicle_links → l ∈ hrefs →
        l ∈ (merge_links hrefs s).new_vehicle_links) := by
  refine ⟨pySetUpdate_mem hrefs s.new_vehicle_links l, pySetUpdate_nodup hrefs _ hnd, ?_⟩
  intro _ _ hh
  exact (pySetUpdate_mem hrefs s.new_vehicle_links l).mpr (Or.inr hh)

theorem merge_dedups_only_against_pending_witness :
    ("B" ∈ (merge_links ["B"] { initState with new_vehicle_links := ["A"] }).new_vehicle_links
      ↔ "B" ∈ (["A"] : List String) ∨ "B" ∈ (["B"] : List String))
    ∧ (merge_links ["B"] { initState with new_vehicle_links := ["A"] }).new_vehicle_links.Nodup
    ∧ ("B" ∈ ({ initState with new_vehicle_links := ["A"] } : CrawlState).broken_vehicle_links →
        "B" ∉ (["A"] : List String) → "B" ∈ (["B"] : List String) →
        "B" ∈ (merge_links ["B"] { initState with new_vehicle_links := ["A"] }).new_vehicle_links) :=
  merge_dedups_only_against_pending ["B"] { initState with new_vehicle_links := ["A"] } "B"
    (by decide)

/-- C4: a per-link task never lets an exception escape: for a link that is
pending when its task runs, `parse_car_page` completes with no escaping
exception, and when the fetch-and-parse step raises, the link is moved to
the broken set and removed from the pending set while the processed set is
untouched. -/
theorem per_link_failure_contained (f : String → Except String CarPageHtml) (l : String)
    (s : CrawlState) (hnew : s.new_vehicle_links.Nodup) (hl : l ∈ s.new_vehicle_links) :
    (parse_car_page f l s).2 = none
    ∧ (∀ e, fetch_and_parse f l = .error e →
        l ∈ (parse_car_page f l s).1.broken_vehicle_links
        ∧ l ∉ (parse_car_page f l s).1.new_vehicle_links
        ∧ (parse_car_page f l s).1.processed_vehicle_links
            = s.processed_vehicle_links) := by
  refine ⟨(parse_car_page_self f l s hl).1, ?_⟩
  intro e he
  have hrw : parse_car_page f l s
      = (add_broken l { s with new_vehicle_links := s.new_vehicle_links.erase l }, none) := by
    unfold parse_car_page
    rw [he]
    simp only [except_branch, pySetRemove]
    rw [if_pos hl]
  rw [hrw]
  refine ⟨?_, ?_, rfl⟩
  · simp only [add_broken]
    exact pySetAdd_self _ _
  · simp only [add_broken]
    intro hmem
    exact ((List.Nodup.mem_erase_iff hnew).mp hmem).1 rfl

/-- Result pages for a two-page crawl in which the single link `A` appears
on both result pages: `start` and `p2` both list `A`; `p3` is the last page
(its `li.next` element carries no anchor). -/
def twoPageSite : String → Except String ResultPage := fun u =>
  if u = "start" then .ok ⟨["A"], some (some "p2")⟩
  else if u = "p2" then .ok ⟨["A"], some (some "p3")⟩
  else .ok ⟨[], some none⟩

/-- A minimal well-formed car page (mandatory elements present, optional
ones absent, empty attributes table). -/
def okCarPage : CarPageHtml := ⟨[], some "B", some "M", none, some [], [], none, none⟩

/-- A flaky network for car pages: every fetch of wave 0 raises, every
later fetch succeeds. -/
def flakyCarFetch : Nat → String → Except String CarPageHtml := fun w _ =>
  if w = 0 then .error "ConnectionError" else .ok okCarPage

/-- The final crawler state of the two-page crawl over `twoPageSite` with
the `flakyCarFetch` network. -/
def twoPageFinal : CrawlState :=
  match iterate_over_available_cars twoPageSite flakyCarFetch 5 "start" with
  | .ok (s, _) => s
  | .error _ => initState

/-- C1 counterexample: in the crawl over `twoPageSite` with `flakyCarFetch`,
the link `A` fails in wave 0 (entering the broken set) and, having been
re-added to pending by the page-2 merge, succeeds in wave 1 — so when the
dispatch wave containing its second addition completes, `A` is a member of
both the processed set and the broken set, not of exactly one. -/
theorem link_ends_in_processed_and_broken :
    "A" ∈ twoPageFinal.processed_vehicle_links
    ∧ "A" ∈ twoPageFinal.broken_vehicle_links
    ∧ "A" ∉ twoPageFinal.new_vehicle_links := by
  decide

/-- C1 (amended): every link of the pending snapshot handed to a dispatch
wave is, when the wave completes, no longer pending and in at least one of
processed/broken; and provided the link is in neither terminal set when the
wave starts (which re-discovery on a later page can violate, see the C2
counterexample), it ends in exactly one of the two. -/
theorem wave_settles_each_pending_link (f : String → Except String CarPageHtml)
    (s : CrawlState) (hnew : s.new_vehicle_links.Nodup) (l : String)
    (hl : l ∈ s.new_vehicle_links)
    (hp : l ∉ s.processed_vehicle_links) (hb : l ∉ s.broken_vehicle_links) :
    l ∉ (run_wave f s.new_vehicle_links s).new_vehicle_links
    ∧ (l ∈ (run_wave f s.new_vehicle_links s).processed_vehicle_links
       ↔ l ∉ (run_wave f s.new_vehicle_links s).broken_vehicle_links) :=
  run_wave_settles f s.new_vehicle_links s hnew hnew (fun _ hx => hx) l hl hp hb

/-- A crawler state with the single pending link `A` and empty terminal
sets, as produced by the first merge of a crawl that discovered `A`. -/
def onePendingState : CrawlState := { initState with new_vehicle_links := ["A"] }

theorem wave_settles_each_pending_link_witness :
    "A" ∉ (run_wave (fun _ => .error "ConnectionError")
        onePendingState.new_vehicle_links onePendingState).new_vehicle_links
    ∧ ("A" ∈ (run_wave (fun _ => .error "ConnectionError")
          onePendingState.new_vehicle_links onePendingState).processed_vehicle_links
       ↔ "A" ∉ (run_wave (fun _ => .error "ConnectionError")
          onePendingState.new_vehicle_links onePendingState).broken_vehicle_links) :=
  wave_settles_each_pending_link (fun _ => .error "ConnectionError") onePendingState
    (by decide) "A" (by decide) (by decide) (by decide)

/-- C3 counterexample: in the success path of `parse_car_page` the link is
added to the processed set (source line 115) before it is removed from the
pending set (source line 116), so in the intermediate state between those
two lines — reached in every successful task — the link is a member of two
sets simultaneously: still pending and already processed. -/
theorem transient_double_membership :
    "A" ∈ (parse_mid "A" demoVData onePendingState).new_vehicle_links
    ∧ "A" ∈ (parse_mid "A" demoVData onePendingState).processed_vehicle_links := by
  decide

/-- C3 (amended): when a task for a pending link completes, the link has
been removed from pending and — provided it was in neither terminal set
before — is in exactly one of processed/broken; but the update is not
two-set-free at every intermediate point: in the success path the state
`parse_mid` between source lines 115 and 116 holds the link in both the
pending and the processed set. -/
theorem parse_car_page_moves_link_once (f : String → Except String CarPageHtml)
    (l : String) (s : CrawlState) (hnew : s.new_vehicle_links.Nodup)
    (hl : l ∈ s.new_vehicle_links)
    (hp : l ∉ s.processed_vehicle_links) (hb : l ∉ s.broken_vehicle_links) :
    l ∉ (parse_car_page f l s).1.new_vehicle_links
    ∧ (l ∈ (parse_car_page f l s).1.processed_vehicle_links
       ↔ l ∉ (parse_car_page f l s).1.broken_vehicle_links)
    ∧ (∀ d : VData, l ∈ (parse_mid l d s).new_vehicle_links
        ∧ l ∈ (parse_mid l d s).processed_vehicle_links) := by
  obtain ⟨-, hnew', hdisj⟩ := parse_car_page_self f l s hl
  refine ⟨?_, ?_, ?_⟩
  · rw [hnew']
    intro hmem
    exact ((List.Nodup.mem_erase_iff hnew).mp hmem).1 rfl
  · rcases hdisj with ⟨hpq, hbq⟩ | ⟨hpq, hbq⟩
    · rw [hpq, hbq]
      exact ⟨fun _ => hb, fun _ => pySetAdd_self _ _⟩
    · rw [hpq, hbq]
      exact ⟨fun hmem => absurd hmem hp, fun hnb => absurd (pySetAdd_self _ _) hnb⟩
  · intro d
    simp only [parse_mid, add_processed, append_vehicle]
    exact ⟨hl, pySetAdd_self _ _⟩

theorem parse_car_page_moves_link_once_witness :
    "A" ∉ (parse_car_page (fun _ => .ok okCarPage) "A" onePendingState).1.new_vehicle_links
    ∧ ("A" ∈ (parse_car_page (fun _ => .ok okCarPage) "A"
          onePendingState).1.processed_vehicle_links
       ↔ "A" ∉ (parse_car_page (fun _ => .ok okCarPage) "A"
          onePendingState).1.broken_vehicle_links)
    ∧ (∀ d : VData, "A" ∈ (parse_mid "A" d onePendingState).new_vehicle_links
        ∧ "A" ∈ (parse_mid "A" d onePendingState).processed_vehicle_links) :=
  parse_car_page_moves_link_once (fun _ => .ok okCarPage) "A" onePendingState
    (by decide) (by decide) (by decide) (by decide)

/-- A car-page network on which every fetch raises. -/
def failCarFetch : String → Except String CarPageHtml := fun _ => .error "ConnectionError"

theorem per_link_failure_contained_witness :
    (parse_car_page failCarFetch "A" onePendingState).2 = none
    ∧ "A" ∈ (parse_car_page failCarFetch "A" onePendingState).1.broken_vehicle_links
    ∧ "A" ∉ (parse_car_page failCarFetch "A" onePendingState).1.new_vehicle_links
    ∧ (parse_car_page failCarFetch "A" onePendingState).1.processed_vehicle_links
        = onePendingState.processed_vehicle_links := by
  have h := per_link_failure_contained failCarFetch "A" onePendingState (by decide) (by decide)
  have h2 := h.2 "ConnectionError" (by rfl)
  exact ⟨h.1, h2.1, h2.2.1, h2.2.2⟩

/-- The wave-indexed form of `failCarFetch` for the driver oracles. -/
def failCarFetchW : Nat → String → Except String CarPageHtml := fun _ => failCarFetch

/-- A site whose every result page lacks the `li.next` element entirely. -/
def noNextLiSite : String → Except String ResultPage := fun _ => .ok ⟨[], none⟩

/-- C6 counterexample: on a result page with no next-page control at all
(the `li` element with class `next` is absent), the crawl does not
terminate normally — `find('li', class_='next').find('a')` is an attribute
access on `None`, so the run aborts with `AttributeError` instead of
treating the page as the terminal state. -/
theorem missing_next_li_crashes_crawl :
    iterate_over_available_cars noNextLiSite failCarFetchW 5 "start"
      = .error "AttributeError" := by
  rfl

/-- C6 (amended): when the next-page lookup yields no anchor — the `li`
element with class `next` is present but contains no `a` element — the
pagination loop terminates normally: no error, no further page fetches, and
the crawl state is returned unchanged; but a page lacking the `li` element
entirely raises `AttributeError` instead (see the counterexample). -/
theorem absent_next_anchor_terminates_loop (getPage : String → Except String ResultPage)
    (fetchCar : Nat → String → Except String CarPageHtml) (fuel wave : Nat)
    (pg : ResultPage) (s : CrawlState) (hf : fuel ≠ 0) (hpg : pg.liNext = some none) :
    find_next_button pg = .ok none
    ∧ crawl_loop getPage fetchCar fuel wave pg none s = .ok (s, []) := by
  constructor
  · unfold find_next_button
    rw [hpg]
  · cases fuel with
    | zero => exact absurd rfl hf
    | succ n => rfl

theorem absent_next_anchor_terminates_loop_witness :
    find_next_button ⟨[], some none⟩ = .ok none
    ∧ crawl_loop noNextLiSite failCarFetchW 5 0 ⟨[], some none⟩ none initState
        = .ok (initState, []) :=
  absent_next_anchor_terminates_loop noNextLiSite failCarFetchW 5 0 ⟨[], some none⟩ initState
    (by decide) rfl

/-- A site whose first page is reachable and advertises a second page, while
every later fetch raises. -/
def secondPageDownSite : String → Except String ResultPage := fun u =>
  if u = "start" then .ok ⟨[], some (some "p2")⟩ else .error "ConnectionError"

/-- C7 counterexample: the first result page is fetched successfully, yet
the crawl still terminates with an error because the fetch of the second
result page (source line 72, inside the loop and protected by nothing)
raises — so the first-page fetch is not the sole fatal failure point. -/
theorem second_page_fetch_failure_aborts :
    iterate_over_available_cars secondPageDownSite failCarFetchW 5 "start"
      = .error "ConnectionError" := by
  rfl

/-- C7 (amended): a failed fetch of the very first result page aborts the
run with that error, and a failed fetch of any later result page equally
aborts the run — the loop body fetches the next page with no handler, so
every page-fetch failure is fatal, not only the first. -/
theorem any_page_fetch_failure_is_fatal (getPage : String → Except String ResultPage)
    (fetchCar : Nat → String → Except String CarPageHtml) (fuel wave : Nat)
    (website url : String) (pg : ResultPage) (s : CrawlState) (e : String)
    (hf : fuel ≠ 0) :
    (∀ e0, getPage website = .error e0 →
      iterate_over_available_cars getPage fetchCar fuel website = .error e0)
    ∧ (getPage url = .error e →
        crawl_loop getPage fetchCar fuel wave pg (some url) s = .error e) := by
  constructor
  · intro e0 h0
    unfold iterate_over_available_cars
    rw [h0]
  · intro h
    cases fuel with
    | zero => exact absurd rfl hf
    | succ n =>
      simp only [crawl_loop]
      rw [h]

theorem any_page_fetch_failure_is_fatal_witness :
    (∀ e0, secondPageDownSite "p2" = .error e0 →
      iterate_over_available_cars secondPageDownSite failCarFetchW 5 "p2" = .error e0)
    ∧ (secondPageDownSite "p2" = .error "ConnectionError" →
        crawl_loop secondPageDownSite failCarFetchW 5 0 ⟨[], some (some "p2")⟩
          (some "p2") initState = .error "ConnectionError") :=
  any_page_fetch_failure_is_fatal secondPageDownSite failCarFetchW 5 0 "p2" "p2"
    ⟨[], some (some "p2")⟩ initState "ConnectionError" (by decide)

/-- The number of cells of a row whose stripped text is non-empty. -/
def nonEmptyCellCount (row : List String) : Nat :=
  row.countP (fun c => nonEmptyStr (pyStrip c))

lemma elementsOf_cons (c : String) (rest : List String) :
    elementsOf (c :: rest)
      = if nonEmptyStr (pyStrip c) then pyStrip c :: elementsOf rest
        else elementsOf rest := by
  by_cases h : nonEmptyStr (pyStrip c) <;>
    simp [elementsOf, colsOf, List.filter_cons, h]

lemma elementsOf_length (row : List String) :
    (elementsOf row).length = nonEmptyCellCount row := by
  induction row with
  | nil => rfl
  | cons c rest ih =>
    rw [elementsOf_cons]
    by_cases h : nonEmptyStr (pyStrip c) <;>
      simp [h, nonEmptyCellCount, List.countP_cons, ih]

/-- The table of the C8 test page: a well-formed price row, a malformed
one-cell row, and a well-formed year row. -/
def c8rows : List (List String) := [["Price", "10000"], ["Color"], ["Year", "2020"]]

/-- A car page carrying the C8 test table. -/
def c8page : CarPageHtml :=
  ⟨[], some "TestBrand", some "TestModel", none, some c8rows, [], none, none⟩

/-- C8: the common-data table loop contributes a key/value pair for a row
exactly when the row has exactly two non-empty cells — the number of kept
elements equals the number of non-empty stripped cells, a row whose count
is not two leaves the mapping unchanged, a row with exactly the two cells
`k`, `v` inserts `k ↦ v` (with non-breaking spaces removed) — and on the
concrete table `[["Price","10000"],["Color"],["Year","2020"]]` the mapping
contains Price and Year while the one-cell row contributes nothing. -/
theorem two_cell_rows_extracted :
    (∀ row : List String, (elementsOf row).length = nonEmptyCellCount row)
    ∧ (∀ (d : List (String × String)) (row : List String),
        ¬ nonEmptyCellCount row = 2 → commonRowStep d row = d)
    ∧ (∀ (d : List (String × String)) (k v : String) (row : List String),
        elementsOf row = [k, v] → commonRowStep d row = dictInsert d k (remove_nbsp v))
    ∧ parse_common_data c8page
        = .ok [("brand", "TestBrand"), ("model", "TestModel"), ("model_group", ""),
            ("Price", "10000"), ("Year", "2020")] := by
  refine ⟨elementsOf_length, ?_, ?_, ?_⟩
  · intro d row h
    have hlen : ¬ (elementsOf row).length = 2 := by
      rw [elementsOf_length row]; exact h
    unfold commonRowStep
    split
    · rename_i k v heq
      refine absurd ?_ hlen
      rw [heq]
      rfl
    · rfl
  · intro d k v row heq
    unfold commonRowStep
    split
    · rename_i k2 v2 heq2
      rw [heq] at heq2
      simp only [List.cons.injEq, and_true] at heq2
      obtain ⟨rfl, rfl⟩ := heq2
      rfl
    · rename_i hno
      exact absurd heq (hno k v)
  · rfl

theorem two_cell_rows_extracted_witness :
    (elementsOf ["Color"]).length = nonEmptyCellCount ["Color"]
    ∧ commonRowStep [] ["Color"] = []
    ∧ commonRowStep [] ["Price", "10000"] = dictInsert [] "Price" (remove_nbsp "10000") :=
  ⟨two_cell_rows_extracted.1 ["Color"],
    two_cell_rows_extracted.2.1 [] ["Color"] (by decide),
    two_cell_rows_extracted.2.2.1 [] "Price" "10000" ["Price", "10000"] (by decide)⟩

/-- C9: on a fetched listing page, missing optional sections degrade to an
empty default — an absent model-group anchor yields `''` in the common
mapping, an absent description div yields `Leírás ↦ ''`, an absent
other-information div yields `Egyéb információ ↦ ''` — while missing
mandatory structure (the brand anchor, the model anchor, or the attributes
table) raises `AttributeError` and makes the whole extraction of that link
fail. -/
theorem optional_defaults_mandatory_raises (pg : CarPageHtml) :
    (pg.marka = none → parse_common_data pg = .error "AttributeError")
    ∧ (pg.modell = none → parse_common_data pg = .error "AttributeError")
    ∧ (pg.hirdetesadatok = none → parse_common_data pg = .error "AttributeError")
    ∧ (∀ b m rows, pg.marka = some b → pg.modell = some m → pg.modellcsoport = none →
        pg.hirdetesadatok = some rows →
        parse_common_data pg = .ok (rows.foldl commonRowStep
          (dictInsert (dictInsert (dictInsert [] "brand" b) "model" m) "model_group" "")))
    ∧ (pg.leiras = none → ∃ rest, parse_description_data pg
        = .ok (("Leírás", DescVal.str "") :: rest))
    ∧ (pg.leiras = none → pg.egyebinformacio = none →
        parse_description_data pg
          = .ok [("Leírás", DescVal.str ""), ("Egyéb információ", DescVal.str "")])
    ∧ (∀ t line, pg.leiras = some t → (pySplit '\n' t).get? 2 = some line →
        pg.egyebinformacio = none →
        parse_description_data pg
          = .ok [("Leírás", DescVal.str line), ("Egyéb információ", DescVal.str "")])
    ∧ (∀ (f : String → Except String CarPageHtml) (l : String),
        f l = .ok pg → pg.marka = none → ∃ e, fetch_and_parse f l = .error e) := by
  refine ⟨?_, ?_, ?_, ?_, ?_, ?_, ?_, ?_⟩
  · intro h
    unfold parse_common_data
    rw [h]
  · intro h
    unfold parse_common_data
    cases hm : pg.marka with
    | none => rfl
    | some b => rw [h]
  · intro h
    unfold parse_common_data
    cases hm : pg.marka with
    | none => rfl
    | some b =>
      cases hmo : pg.modell with
      | none => rfl
      | some m => rw [h]
  · intro b m rows hm hmo hcs hta
    unfold parse_common_data
    rw [hm, hmo, hcs, hta]
  · intro h
    refine ⟨[("Egyéb információ", egyeb_value pg.egyebinformacio)], ?_⟩
    unfold parse_description_data
    rw [h]
    rfl
  · intro h1 h2
    unfold parse_description_data
    rw [h1, h2]
    rfl
  · intro t line h1 h2 h3
    have hd : descr_value pg.leiras = .ok (DescVal.str line) := by
      rw [h1]
      simp only [descr_value]
      rw [h2]
    unfold parse_description_data
    rw [hd, h3]
    rfl
  · intro f l hf hm
    have hc : parse_common_data pg = .error "AttributeError" := by
      unfold parse_common_data
      rw [hm]
    cases hpi : parse_images pg.thumbnails with
    | error e =>
      refine ⟨e, ?_⟩
      unfold fetch_and_parse
      rw [hf]
      simp [hpi]
    | ok imgs =>
      refine ⟨"AttributeError", ?_⟩
      unfold fetch_and_parse
      rw [hf]
      simp [hpi, hc]

/-- A car page whose mandatory brand anchor is missing. -/
def noBrandPage : CarPageHtml := ⟨[], none, some "M", none, some [], [], none, none⟩

theorem optional_defaults_mandatory_raises_witness :
    parse_common_data noBrandPage = .error "AttributeError"
    ∧ parse_common_data okCarPage = .ok (([] : List (List String)).foldl commonRowStep
        (dictInsert (dictInsert (dictInsert [] "brand" "B") "model" "M") "model_group" ""))
    ∧ parse_description_data okCarPage
        = .ok [("Leírás", DescVal.str ""), ("Egyéb információ", DescVal.str "")]
    ∧ (∃ e, fetch_and_parse (fun _ => .ok noBrandPage) "A" = .error e) :=
  ⟨(optional_defaults_mandatory_raises noBrandPage).1 rfl,
    (optional_defaults_mandatory_raises okCarPage).2.2.2.1 "B" "M" [] rfl rfl rfl rfl,
    (optional_defaults_mandatory_raises okCarPage).2.2.2.2.2.1 rfl rfl,
    (optional_defaults_mandatory_raises noBrandPage).2.2.2.2.2.2.2
      (fun _ => .ok noBrandPage) "A" rfl rfl⟩
